import Mathlib

/-!
Verification of `factory/alchemy.py` (factory_boy SQLAlchemy adapter).

The module is embedded shallowly: the session is modelled as an explicit
state (`Sess`) carrying a log of the operations the adapter issues and the
set of instances currently tracked by the session; the database's answers
to the queries the adapter issues, and whether the insert attempt raises
an `IntegrityError`, are supplied by an oracle (`Env`).  Exceptions become
`Except` values; Python keyword-argument dicts become association lists.
-/

namespace FactoryAlchemy

/-- Attribute values of model fields. -/
abbrev V := Nat

/-- A keyword-argument mapping (Python dict), as an association list. -/
abbrev KV := List (String × V)

/-- An ORM model instance: either a row already present in the database
(identified abstractly), or an instance constructed by calling
`model_class(*args, **kwargs)`; the `made` constructor records exactly the
positional and keyword arguments passed to `model_class`. -/
inductive Instance where
  | row (id : Nat)
  | made (args : List V) (kwargs : KV)
deriving DecidableEq

/-- One operation issued against the SQLAlchemy session. -/
inductive Event where
  | query (args : List V) (filt : KV)
  | add (i : Instance)
  | rollback
  | flush
  | commit
deriving DecidableEq

/-- The session state: the chronological log of operations issued, and the
instances currently tracked by the session (what Python's
`obj in session` membership test consults). -/
structure Sess where
  events : List Event
  contents : List Instance
deriving DecidableEq

/-- The exceptions the adapter can raise or propagate.  An
`IntegrityError` carries an abstract identity so that re-raising the very
same error object is expressible. -/
inductive Err where
  | factoryError (msg : String)
  | integrityError (e : Nat)
  | runtimeError (msg : String)
  | typeError (meta : String) (value : Option String)
deriving DecidableEq

/-- `SESSION_PERSISTENCE_COMMIT = 'commit'` (alchemy.py line 8). -/
def SESSION_PERSISTENCE_COMMIT : String := "commit"

/-- `SESSION_PERSISTENCE_FLUSH = 'flush'` (alchemy.py line 9). -/
def SESSION_PERSISTENCE_FLUSH : String := "flush"

/-- `VALID_SESSION_PERSISTENCE_TYPES` (alchemy.py lines 10-14):
`[None, 'commit', 'flush']`; Python `None` is `Option.none`. -/
def VALID_SESSION_PERSISTENCE_TYPES : List (Option String) :=
  [none, some SESSION_PERSISTENCE_COMMIT, some SESSION_PERSISTENCE_FLUSH]

/-- The factory configuration relevant to this module: the three
SQLAlchemy options declared in `SQLAlchemyOptions._build_default_options`,
plus the factory class name (used in error messages). -/
structure Config where
  name : String
  sqlalchemy_get_or_create : List String
  sqlalchemy_session : Option Unit
  sqlalchemy_session_persistence : Option String
deriving DecidableEq

/-- The database oracle: what `one_or_none()` answers for the initial
lookup, whether constructing/adding a given instance raises an
`IntegrityError` (and which one), and what `one()` answers on the
conflict-recovery re-query (`none` meaning `NoResultFound`). -/
structure Env where
  queryOneOrNone : List V → KV → Option Instance
  addRaises : Instance → Option Nat
  queryOne : KV → Option Instance

/-- Append an operation to the session log. -/
def logEvent (s : Sess) (e : Event) : Sess :=
  { s with events := s.events ++ [e] }

/-- `session.add(i)`: logged, and `i` becomes tracked by the session. -/
def addToSession (s : Sess) (i : Instance) : Sess :=
  { events := s.events ++ [Event.add i], contents := s.contents ++ [i] }

/-- Remove every binding of key `k` (Python `dict.pop` removes the key). -/
def kvErase (m : KV) (k : String) : KV :=
  m.filter (fun kv => kv.1 != k)

/-- The `FactoryError` message of alchemy.py lines 62-65. -/
def missingFieldMsg (field name : String) : String :=
  "sqlalchemy_get_or_create - Unable to find initialization value for \x27"
    ++ field ++ "\x27 in factory " ++ name

/-- The loop of alchemy.py lines 59-66: for each configured key field,
raise `FactoryError` if it is absent from `kwargs`, otherwise pop its
value into the `key_fields` mapping.  Returns `(key_fields, kwargs)`
after the loop. -/
def popKeyFields (name : String) : List String → KV → KV → Except Err (KV × KV)
  | [], kwargs, acc => .ok (acc, kwargs)
  | f :: rest, kwargs, acc =>
    match kwargs.lookup f with
    | none => .error (.factoryError (missingFieldMsg f name))
    | some v => popKeyFields name rest (kvErase kwargs f) (acc ++ [(f, v)])

/-- The dict comprehension of alchemy.py lines 77-81: the stored original
(pre-resolution) parameters restricted to the configured key-field
names. -/
def origKeyParams (cfg : Config) (originalParams : KV) : KV :=
  originalParams.filter (fun kv => cfg.sqlalchemy_get_or_create.contains kv.1)

/-- `SQLAlchemyModelFactory._get_or_create` (alchemy.py lines 53-93).
`originalParams` models `cls._original_params`, the pre-resolution
parameter snapshot stored by `_generate`.  The result pairs the returned
instance (or the propagated exception) with the session state after the
call: an exception does not undo operations already issued. -/
def get_or_create (cfg : Config) (env : Env) (originalParams : KV)
    (args : List V) (kwargs : KV) (s : Sess) : Except Err Instance × Sess :=
  match popKeyFields cfg.name cfg.sqlalchemy_get_or_create kwargs [] with
  | .error err => (.error err, s)
  | .ok (key_fields, _rest) =>
    let s1 := logEvent s (Event.query args key_fields)
    match env.queryOneOrNone args key_fields with
    | some inst => (.ok inst, s1)
    | none =>
      let inst := Instance.made args key_fields
      match env.addRaises inst with
      | none => (.ok inst, addToSession s1 inst)
      | some e =>
        let s2 := logEvent s1 Event.rollback
        let get_or_create_params := origKeyParams cfg originalParams
        if get_or_create_params = [] then
          (.error (.integrityError e), s2)
        else
          let s3 := logEvent s2 (Event.query [] get_or_create_params)
          match env.queryOne get_or_create_params with
          | some found => (.ok found, s3)
          | none => (.error (.integrityError e), s3)

/-- The tail of `_create` (alchemy.py lines 108-111): apply the
configured persistence policy. -/
def applyPersistence (p : Option String) (s : Sess) : Sess :=
  if p = some SESSION_PERSISTENCE_FLUSH then logEvent s Event.flush
  else if p = some SESSION_PERSISTENCE_COMMIT then logEvent s Event.commit
  else s

/-- The events `applyPersistence` appends for a given policy value. -/
def persistEvents (p : Option String) : List Event :=
  if p = some SESSION_PERSISTENCE_FLUSH then [Event.flush]
  else if p = some SESSION_PERSISTENCE_COMMIT then [Event.commit]
  else []

/-- `SQLAlchemyModelFactory._create` (alchemy.py lines 95-112). -/
def create (cfg : Config) (env : Env) (originalParams : KV)
    (args : List V) (kwargs : KV) (s : Sess) : Except Err Instance × Sess :=
  let obj := Instance.made args kwargs
  if cfg.sqlalchemy_session = none then
    (.error (.runtimeError "No session provided."), s)
  else
    let r :=
      if cfg.sqlalchemy_get_or_create = [] then (Except.ok obj, s)
      else get_or_create cfg env originalParams args kwargs s
    match r with
    | (.error e, s1) => (.error e, s1)
    | (.ok obj2, s1) =>
      let s2 := if obj2 ∈ s1.contents then s1 else addToSession s1 obj2
      (.ok obj2, applyPersistence cfg.sqlalchemy_session_persistence s2)

/-- `SQLAlchemyOptions._check_sqlalchemy_session_persistence`
(alchemy.py lines 18-23). -/
def check_sqlalchemy_session_persistence (meta : String) (value : Option String) :
    Except Err Unit :=
  if value ∉ VALID_SESSION_PERSISTENCE_TYPES then
    .error (.typeError meta value)
  else
    .ok ()

/-- Modelled from the spec: `base.FactoryOptions` (not under src/) invokes
each declared option's checker when the factory configuration is defined,
so `SQLAlchemyOptions._build_default_options` (alchemy.py lines 25-35),
which attaches `_check_sqlalchemy_session_persistence` as the checker of
`sqlalchemy_session_persistence`, makes an invalid persistence value a
hard error at configuration-definition time. -/
def build_default_options (meta : String) (goc : List String) (sess : Option Unit)
    (persistence : Option String) : Except Err Config :=
  match check_sqlalchemy_session_persistence meta persistence with
  | .error e => .error e
  | .ok _ =>
    .ok { name := meta
          sqlalchemy_get_or_create := goc
          sqlalchemy_session := sess
          sqlalchemy_session_persistence := persistence }

/-! Concrete fixtures used by witnesses and counterexamples. -/

/-- A factory configured with one get-or-create key field `x`. -/
def cfgX : Config :=
  { name := "UserFactory"
    sqlalchemy_get_or_create := ["x"]
    sqlalchemy_session := some ()
    sqlalchemy_session_persistence := none }

/-- A factory with no get-or-create fields and flush persistence. -/
def cfgPlain : Config :=
  { name := "PlainFactory"
    sqlalchemy_get_or_create := []
    sqlalchemy_session := some ()
    sqlalchemy_session_persistence := some SESSION_PERSISTENCE_FLUSH }

/-- Oracle: the initial lookup finds row 1. -/
def envFound : Env :=
  { queryOneOrNone := fun _ _ => some (Instance.row 1)
    addRaises := fun _ => none
    queryOne := fun _ => none }

/-- Oracle: nothing exists, insert succeeds. -/
def envFresh : Env :=
  { queryOneOrNone := fun _ _ => none
    addRaises := fun _ => none
    queryOne := fun _ => none }

/-- Oracle: nothing found at first, insert raises `IntegrityError` 7,
re-query finds row 2. -/
def envConflictFound : Env :=
  { queryOneOrNone := fun _ _ => none
    addRaises := fun _ => some 7
    queryOne := fun _ => some (Instance.row 2) }

/-- Oracle: nothing found at first, insert raises `IntegrityError` 7,
re-query finds nothing (`NoResultFound`). -/
def envConflictMiss : Env :=
  { queryOneOrNone := fun _ _ => none
    addRaises := fun _ => some 7
    queryOne := fun _ => none }

/-- The empty session. -/
def sess0 : Sess := { events := [], contents := [] }

/-! Theorems.  First, helper lemmas about `popKeyFields` and `kvErase`. -/

/-- Every binding popped into `key_fields` is named by one of the
configured fields (or was already in the accumulator). -/
theorem popKeyFields_mem (name : String) :
    ∀ (fields : List String) (kwargs acc kf rest : KV),
      popKeyFields name fields kwargs acc = .ok (kf, rest) →
      ∀ p ∈ kf, p.1 ∈ fields ∨ p ∈ acc := by
  intro fields
  induction fields with
  | nil =>
    intro kwargs acc kf rest h p hp
    simp only [popKeyFields, Except.ok.injEq, Prod.mk.injEq] at h
    obtain ⟨h1, _⟩ := h
    subst h1
    exact Or.inr hp
  | cons f fs ih =>
    intro kwargs acc kf rest h p hp
    simp only [popKeyFields] at h
    cases hl : kwargs.lookup f with
    | none => rw [hl] at h; exact absurd h (by simp)
    | some v =>
      rw [hl] at h
      rcases ih (kvErase kwargs f) (acc ++ [(f, v)]) kf rest h p hp with h1 | h2
      · exact Or.inl (List.mem_cons_of_mem f h1)
      · rcases List.mem_append.mp h2 with h3 | h4
        · exact Or.inr h3
        · left
          rw [List.mem_singleton.mp h4]
          exact List.mem_cons_self f fs

/-- A successful lookup exhibits a binding in the list. -/
theorem lookup_mem_kv (k : String) (v : V) :
    ∀ m : KV, m.lookup k = some v → (k, v) ∈ m := by
  intro m
  induction m with
  | nil => intro h; exact absurd h (by simp [List.lookup])
  | cons kv rest ih =>
    intro h
    obtain ⟨k1, v1⟩ := kv
    by_cases hk : k = k1
    · subst hk
      simp [List.lookup] at h
      subst h
      exact List.mem_cons_self _ _
    · have hb : (k == k1) = false := beq_eq_false_iff_ne.mpr hk
      simp [List.lookup, hb] at h
      exact List.mem_cons_of_mem _ (ih h)

/-- Erasing one key does not change the lookup of another. -/
theorem kvErase_lookup_ne (k g : String) (h : g ≠ k) :
    ∀ m : KV, (kvErase m k).lookup g = m.lookup g := by
  intro m
  induction m with
  | nil => rfl
  | cons kv rest ih =>
    obtain ⟨k1, v1⟩ := kv
    by_cases hk : k1 = k
    · subst hk
      have hb : (k1 != k1) = false := by simp
      have hg : (g == k1) = false := beq_eq_false_iff_ne.mpr h
      simp only [kvErase, List.filter, hb] at ih ⊢
      rw [show List.lookup g ((k1, v1) :: rest) = List.lookup g rest from by
        simp [List.lookup, hg]]
      exact ih
    · have hb : (k1 != k) = true := bne_iff_ne.mpr hk
      simp only [kvErase, List.filter, hb] at ih ⊢
      by_cases hg : g = k1
      · subst hg
        simp [List.lookup]
      · have hg2 : (g == k1) = false := beq_eq_false_iff_ne.mpr hg
        simp only [List.lookup, hg2]
        exact ih

/-- When some configured field is absent from the kwargs and the fields
are distinct, the pop loop stops at the first such field with the
corresponding `FactoryError`. -/
theorem popKeyFields_missing (name : String) :
    ∀ (fields : List String) (kwargs acc : KV), fields.Nodup →
      (∃ f ∈ fields, kwargs.lookup f = none) →
      ∃ g ∈ fields, kwargs.lookup g = none ∧
        popKeyFields name fields kwargs acc =
          .error (.factoryError (missingFieldMsg g name)) := by
  intro fields
  induction fields with
  | nil =>
    intro kwargs acc _ habs
    simp at habs
  | cons f fs ih =>
    intro kwargs acc hnd habs
    cases hl : kwargs.lookup f with
    | none =>
      refine ⟨f, List.mem_cons_self f fs, hl, ?_⟩
      simp only [popKeyFields]
      rw [hl]
    | some v =>
      obtain ⟨f0, hf0, hf0none⟩ := habs
      have hf0fs : f0 ∈ fs := by
        rcases List.mem_cons.mp hf0 with h1 | h1
        · subst h1; rw [hl] at hf0none; exact absurd hf0none (by simp)
        · exact h1
      have hne : f0 ≠ f := by
        intro hEq; subst hEq; rw [hl] at hf0none; exact absurd hf0none (by simp)
      have hstill : (kvErase kwargs f).lookup f0 = none := by
        rw [kvErase_lookup_ne f f0 hne kwargs]; exact hf0none
      obtain ⟨g, hgfs, hgnone, hgpop⟩ :=
        ih (kvErase kwargs f) (acc ++ [(f, v)]) (List.Nodup.of_cons hnd) ⟨f0, hf0fs, hstill⟩
      have hgne : g ≠ f := by
        intro hEq; subst hEq
        exact (List.nodup_cons.mp hnd).1 hgfs
      refine ⟨g, List.mem_cons_of_mem f hgfs, ?_, ?_⟩
      · rw [← kvErase_lookup_ne f g hgne kwargs]; exact hgnone
      · simp only [popKeyFields]
        rw [hl]
        exact hgpop

/-- `applyPersistence` appends exactly `persistEvents p` to the log. -/
theorem applyPersistence_events (p : Option String) (s : Sess) :
    (applyPersistence p s).events = s.events ++ persistEvents p := by
  unfold applyPersistence persistEvents
  by_cases h1 : p = some SESSION_PERSISTENCE_FLUSH
  · simp [h1, logEvent]
  · by_cases h2 : p = some SESSION_PERSISTENCE_COMMIT
    · simp [h1, h2, logEvent, SESSION_PERSISTENCE_COMMIT, SESSION_PERSISTENCE_FLUSH]
    · simp [h1, h2]

/-- `applyPersistence` leaves the tracked set unchanged. -/
theorem applyPersistence_contents (p : Option String) (s : Sess) :
    (applyPersistence p s).contents = s.contents := by
  unfold applyPersistence
  by_cases h1 : p = some SESSION_PERSISTENCE_FLUSH
  · simp [h1, logEvent]
  · by_cases h2 : p = some SESSION_PERSISTENCE_COMMIT
    · simp [h1, h2, logEvent, SESSION_PERSISTENCE_COMMIT, SESSION_PERSISTENCE_FLUSH]
    · simp [h1, h2]

/-- Persistence events are flushes and commits, never queries. -/
theorem persistEvents_no_query (p : Option String) (a : List V) (f : KV) :
    Event.query a f ∉ persistEvents p := by
  unfold persistEvents
  by_cases h1 : p = some SESSION_PERSISTENCE_FLUSH
  · simp [h1]
  · by_cases h2 : p = some SESSION_PERSISTENCE_COMMIT
    · simp [h1, h2, SESSION_PERSISTENCE_COMMIT, SESSION_PERSISTENCE_FLUSH]
    · simp [h1, h2]

/-- C2: with a non-empty `sqlalchemy_get_or_create`, if the initial
`one_or_none` query (filtered by the positional args and the resolved
key-field values) returns a row, `_get_or_create` returns exactly that
row; the session log gains only the query event and the tracked set is
unchanged, so no new instance is constructed and no `session.add` is
issued. -/
theorem get_or_create_returns_existing (cfg : Config) (env : Env) (orig : KV)
    (args : List V) (kwargs : KV) (s : Sess) (kf rest : KV) (inst : Instance)
    (_hne : cfg.sqlalchemy_get_or_create ≠ [])
    (hpop : popKeyFields cfg.name cfg.sqlalchemy_get_or_create kwargs [] = .ok (kf, rest))
    (hq : env.queryOneOrNone args kf = some inst) :
    get_or_create cfg env orig args kwargs s =
      (.ok inst, { events := s.events ++ [Event.query args kf], contents := s.contents }) := by
  unfold get_or_create
  rw [hpop]
  simp [logEvent, hq]

/-- Witness for C2 at a concrete input. -/
theorem get_or_create_returns_existing_witness :
    get_or_create cfgX envFound [] [] [("x", 5)] sess0 =
      (.ok (Instance.row 1),
        { events := [Event.query [] [("x", 5)]], contents := [] }) :=
  get_or_create_returns_existing cfgX envFound [] [] [("x", 5)] sess0
    [("x", 5)] [] (Instance.row 1) (by decide) rfl rfl

/-- C3: with a non-empty `sqlalchemy_get_or_create`, when the initial
lookup finds no row and the insert attempt does not raise,
`_get_or_create` constructs exactly `model_class(*args, **key_fields)` —
whose keyword arguments all come from the configured key fields, so the
remaining non-key resolved kwargs are not passed — and registers it via
`session.add`; the log gains only the query and add events, in
particular no flush and no commit happen inside `_get_or_create`. -/
theorem get_or_create_inserts_new (cfg : Config) (env : Env) (orig : KV)
    (args : List V) (kwargs : KV) (s : Sess) (kf rest : KV)
    (_hne : cfg.sqlalchemy_get_or_create ≠ [])
    (hpop : popKeyFields cfg.name cfg.sqlalchemy_get_or_create kwargs [] = .ok (kf, rest))
    (hq : env.queryOneOrNone args kf = none)
    (hadd : env.addRaises (Instance.made args kf) = none) :
    get_or_create cfg env orig args kwargs s =
      (.ok (Instance.made args kf),
        { events := s.events ++ [Event.query args kf, Event.add (Instance.made args kf)],
          contents := s.contents ++ [Instance.made args kf] }) ∧
    (∀ p ∈ kf, p.1 ∈ cfg.sqlalchemy_get_or_create) := by
  constructor
  · unfold get_or_create
    rw [hpop]
    simp [logEvent, addToSession, hq, hadd]
  · intro p hp
    rcases popKeyFields_mem cfg.name cfg.sqlalchemy_get_or_create kwargs [] kf rest hpop p hp
      with h1 | h2
    · exact h1
    · exact absurd h2 (List.not_mem_nil p)

/-- Witness for C3 at a concrete input. -/
theorem get_or_create_inserts_new_witness :
    get_or_create cfgX envFresh [] [] [("x", 5), ("y", 9)] sess0 =
      (.ok (Instance.made [] [("x", 5)]),
        { events := [Event.query [] [("x", 5)], Event.add (Instance.made [] [("x", 5)])],
          contents := [Instance.made [] [("x", 5)]] }) ∧
    (∀ p ∈ [(("x" : String), (5 : V))], p.1 ∈ cfgX.sqlalchemy_get_or_create) :=
  get_or_create_inserts_new cfgX envFresh [] [] [("x", 5), ("y", 9)] sess0
    [("x", 5)] [("y", 9)] (by decide) rfl rfl rfl

/-- C1: with a non-empty `sqlalchemy_get_or_create`, when the insert
attempt raises an `IntegrityError`, the session is rolled back first
(the rollback event precedes any further query); then (a) if the stored
original parameters restricted to the key-field names are non-empty and
the re-query filtered by exactly those original values finds one row,
that row is the result; (b) if that restriction is empty, or the
re-query finds no row, the very same `IntegrityError` is re-raised. -/
theorem get_or_create_conflict_recovery (cfg : Config) (env : Env) (orig : KV)
    (args : List V) (kwargs : KV) (s : Sess) (kf rest : KV) (e : Nat)
    (_hne : cfg.sqlalchemy_get_or_create ≠ [])
    (hpop : popKeyFields cfg.name cfg.sqlalchemy_get_or_create kwargs [] = .ok (kf, rest))
    (hq : env.queryOneOrNone args kf = none)
    (hadd : env.addRaises (Instance.made args kf) = some e) :
    (∀ found, origKeyParams cfg orig ≠ [] →
      env.queryOne (origKeyParams cfg orig) = some found →
      get_or_create cfg env orig args kwargs s =
        (.ok found,
          { events := s.events ++ [Event.query args kf, Event.rollback,
              Event.query [] (origKeyParams cfg orig)],
            contents := s.contents })) ∧
    (origKeyParams cfg orig = [] →
      get_or_create cfg env orig args kwargs s =
        (.error (.integrityError e),
          { events := s.events ++ [Event.query args kf, Event.rollback],
            contents := s.contents })) ∧
    (origKeyParams cfg orig ≠ [] →
      env.queryOne (origKeyParams cfg orig) = none →
      get_or_create cfg env orig args kwargs s =
        (.error (.integrityError e),
          { events := s.events ++ [Event.query args kf, Event.rollback,
              Event.query [] (origKeyParams cfg orig)],
            contents := s.contents })) := by
  refine ⟨?_, ?_, ?_⟩
  · intro found hgoc hone
    unfold get_or_create
    rw [hpop]
    simp [logEvent, hq, hadd, hone, hgoc]
  · intro hgoc
    unfold get_or_create
    rw [hpop]
    simp [logEvent, hq, hadd, hgoc]
  · intro hgoc hone
    unfold get_or_create
    rw [hpop]
    simp [logEvent, hq, hadd, hone, hgoc]

/-- Witness for C1 at a concrete input: the conflict is recovered by the
re-query on the original parameters. -/
theorem get_or_create_conflict_recovery_witness :
    get_or_create cfgX envConflictFound [("x", 3)] [] [("x", 3)] sess0 =
      (.ok (Instance.row 2),
        { events := [Event.query [] [("x", 3)], Event.rollback,
            Event.query [] [("x", 3)]],
          contents := [] }) :=
  (get_or_create_conflict_recovery cfgX envConflictFound [("x", 3)] [] [("x", 3)] sess0
      [("x", 3)] [] 7 (by decide) rfl rfl rfl).1
    (Instance.row 2) (by decide) rfl

/-- C9 as stated is false on the code: `_get_or_create` constructs
`model_class(*args, **key_fields)`, so the configured key-field names ARE
passed as keyword arguments to the constructor.  Concretely, with key
field `x` and kwargs `x=1, y=2`, the constructed instance carries the
keyword argument `x`, a `sqlalchemy_get_or_create` name. -/
theorem get_or_create_constructor_excludes_keys_counterexample :
    (get_or_create cfgX envFresh [] [] [("x", 1), ("y", 2)] sess0).1 =
      .ok (Instance.made [] [("x", 1)]) ∧
    Event.add (Instance.made [] [("x", 1)]) ∈
      (get_or_create cfgX envFresh [] [] [("x", 1), ("y", 2)] sess0).2.events ∧
    "x" ∈ cfgX.sqlalchemy_get_or_create :=
  ⟨rfl, by decide, by decide⟩

/-- C9 amended: the fields popped out of the resolved kwargs are exactly
the keyword arguments passed to the constructor — every keyword passed to
`model_class` names a `sqlalchemy_get_or_create` field, and no non-key
resolved kwarg reaches the constructor (any name outside the configured
fields has no binding among the constructor's keyword arguments). -/
theorem get_or_create_constructor_kwargs (cfg : Config) (env : Env) (orig : KV)
    (args : List V) (kwargs : KV) (s : Sess) (kf rest : KV)
    (hpop : popKeyFields cfg.name cfg.sqlalchemy_get_or_create kwargs [] = .ok (kf, rest))
    (hq : env.queryOneOrNone args kf = none)
    (hadd : env.addRaises (Instance.made args kf) = none) :
    (get_or_create cfg env orig args kwargs s).1 = .ok (Instance.made args kf) ∧
    (∀ p ∈ kf, p.1 ∈ cfg.sqlalchemy_get_or_create) ∧
    (∀ name, name ∉ cfg.sqlalchemy_get_or_create → kf.lookup name = none) := by
  have hmem : ∀ p ∈ kf, p.1 ∈ cfg.sqlalchemy_get_or_create := by
    intro p hp
    rcases popKeyFields_mem cfg.name cfg.sqlalchemy_get_or_create kwargs [] kf rest hpop p hp
      with h1 | h2
    · exact h1
    · exact absurd h2 (List.not_mem_nil p)
  refine ⟨?_, hmem, ?_⟩
  · unfold get_or_create
    rw [hpop]
    simp [logEvent, addToSession, hq, hadd]
  · intro name hname
    cases hl : kf.lookup name with
    | none => rfl
    | some v =>
      exact absurd (hmem (name, v) (lookup_mem_kv name v kf hl)) hname

/-- Witness for the amended C9 at a concrete input. -/
theorem get_or_create_constructor_kwargs_witness :
    (get_or_create cfgX envFresh [] [] [("x", 1), ("y", 2)] sess0).1 =
      .ok (Instance.made [] [("x", 1)]) ∧
    (∀ p ∈ [(("x" : String), (1 : V))], p.1 ∈ cfgX.sqlalchemy_get_or_create) ∧
    (∀ name, name ∉ cfgX.sqlalchemy_get_or_create →
      List.lookup name [(("x" : String), (1 : V))] = none) :=
  get_or_create_constructor_kwargs cfgX envFresh [] [] [("x", 1), ("y", 2)] sess0
    [("x", 1)] [("y", 2)] rfl rfl rfl

/-- C4: when a configured (duplicate-free) key-field list names a field
absent from the resolved kwargs, `_get_or_create` — and hence `_create`,
given a configured session — raises `FactoryError` with the message
naming the missing field and the factory class, and the session state is
untouched: no query, add, flush or commit has been issued. -/
theorem get_or_create_missing_field (cfg : Config) (env : Env) (orig : KV)
    (args : List V) (kwargs : KV) (s : Sess) (f : String)
    (hnd : cfg.sqlalchemy_get_or_create.Nodup)
    (hf : f ∈ cfg.sqlalchemy_get_or_create)
    (hmiss : kwargs.lookup f = none)
    (hsess : cfg.sqlalchemy_session = some ()) :
    ∃ g ∈ cfg.sqlalchemy_get_or_create, kwargs.lookup g = none ∧
      get_or_create cfg env orig args kwargs s =
        (.error (.factoryError (missingFieldMsg g cfg.name)), s) ∧
      create cfg env orig args kwargs s =
        (.error (.factoryError (missingFieldMsg g cfg.name)), s) := by
  obtain ⟨g, hg, hgnone, hgpop⟩ :=
    popKeyFields_missing cfg.name cfg.sqlalchemy_get_or_create kwargs [] hnd ⟨f, hf, hmiss⟩
  have hgo : get_or_create cfg env orig args kwargs s =
      (.error (.factoryError (missingFieldMsg g cfg.name)), s) := by
    unfold get_or_create
    rw [hgpop]
  have hne : cfg.sqlalchemy_get_or_create ≠ [] := by
    intro hlist; rw [hlist] at hf; exact absurd hf (List.not_mem_nil f)
  refine ⟨g, hg, hgnone, hgo, ?_⟩
  unfold create
  simp [hsess, hne, hgo]

/-- Witness for C4 at a concrete input: key field `x` missing from the
kwargs `y=2`. -/
theorem get_or_create_missing_field_witness :
    ∃ g ∈ cfgX.sqlalchemy_get_or_create,
      List.lookup g [(("y" : String), (2 : V))] = none ∧
      get_or_create cfgX envFresh [] [] [("y", 2)] sess0 =
        (.error (.factoryError (missingFieldMsg g cfgX.name)), sess0) ∧
      create cfgX envFresh [] [] [("y", 2)] sess0 =
        (.error (.factoryError (missingFieldMsg g cfgX.name)), sess0) :=
  get_or_create_missing_field cfgX envFresh [] [] [("y", 2)] sess0 "x"
    (by decide) (by decide) rfl rfl

/-- C5: with an empty `sqlalchemy_get_or_create` and a configured
session, `_create` constructs `model_class(*args, **kwargs)` once, adds
that (fresh, hence untracked) object to the session, applies the
persistence policy, and issues no session query at all. -/
theorem create_plain_insert (cfg : Config) (env : Env) (orig : KV)
    (args : List V) (kwargs : KV) (s : Sess)
    (hempty : cfg.sqlalchemy_get_or_create = [])
    (hsess : cfg.sqlalchemy_session = some ())
    (hfresh : Instance.made args kwargs ∉ s.contents) :
    create cfg env orig args kwargs s =
      (.ok (Instance.made args kwargs),
        applyPersistence cfg.sqlalchemy_session_persistence
          (addToSession s (Instance.made args kwargs))) ∧
    (∀ a f, Event.query a f ∈ (create cfg env orig args kwargs s).2.events →
      Event.query a f ∈ s.events) := by
  have h1 : create cfg env orig args kwargs s =
      (.ok (Instance.made args kwargs),
        applyPersistence cfg.sqlalchemy_session_persistence
          (addToSession s (Instance.made args kwargs))) := by
    unfold create
    simp [hsess, hempty, hfresh]
  refine ⟨h1, ?_⟩
  intro a f hm
  rw [h1] at hm
  rw [show ((Except.ok (Instance.made args kwargs) : Except Err Instance),
      applyPersistence cfg.sqlalchemy_session_persistence
        (addToSession s (Instance.made args kwargs))).2 =
      applyPersistence cfg.sqlalchemy_session_persistence
        (addToSession s (Instance.made args kwargs)) from rfl] at hm
  rw [applyPersistence_events] at hm
  rcases List.mem_append.mp hm with hm1 | hm2
  · simpa [addToSession] using hm1
  · exact absurd hm2 (persistEvents_no_query cfg.sqlalchemy_session_persistence a f)

/-- Witness for C5 at a concrete input. -/
theorem create_plain_insert_witness :
    create cfgPlain envFresh [] [(4 : V)] [("y", 2)] sess0 =
      (.ok (Instance.made [4] [("y", 2)]),
        applyPersistence cfgPlain.sqlalchemy_session_persistence
          (addToSession sess0 (Instance.made [4] [("y", 2)]))) ∧
    (∀ a f, Event.query a f ∈ (create cfgPlain envFresh [] [4] [("y", 2)] sess0).2.events →
      Event.query a f ∈ sess0.events) :=
  create_plain_insert cfgPlain envFresh [] [4] [("y", 2)] sess0 rfl rfl (by decide)

/-- Structural description of the session state after `_get_or_create`:
the log grows by a suffix that contains no flush and no commit, and the
tracked set either is unchanged or gains exactly the freshly constructed
instance (which is then the successful result, with its add event in the
suffix). -/
theorem get_or_create_state (cfg : Config) (env : Env) (orig : KV)
    (args : List V) (kwargs : KV) (s : Sess) :
    ∃ mid, (get_or_create cfg env orig args kwargs s).2.events = s.events ++ mid ∧
      Event.flush ∉ mid ∧ Event.commit ∉ mid ∧
      ((get_or_create cfg env orig args kwargs s).2.contents = s.contents ∨
        ∃ obj, (get_or_create cfg env orig args kwargs s).1 = .ok obj ∧
          (get_or_create cfg env orig args kwargs s).2.contents = s.contents ++ [obj] ∧
          Event.add obj ∈ mid) := by
  unfold get_or_create
  cases hpop : popKeyFields cfg.name cfg.sqlalchemy_get_or_create kwargs [] with
  | error err =>
    exact ⟨[], by simp, by simp, by simp, Or.inl (by simp)⟩
  | ok kv =>
    obtain ⟨kf, rest⟩ := kv
    cases hq : env.queryOneOrNone args kf with
    | some inst =>
      exact ⟨[Event.query args kf], by simp [logEvent, hq], by simp, by simp,
        Or.inl (by simp [logEvent, hq])⟩
    | none =>
      cases hadd : env.addRaises (Instance.made args kf) with
      | none =>
        refine ⟨[Event.query args kf, Event.add (Instance.made args kf)],
          by simp [logEvent, addToSession, hq, hadd], by simp, by simp,
          Or.inr ⟨Instance.made args kf, by simp [logEvent, hq, hadd],
            by simp [logEvent, addToSession, hq, hadd], by simp⟩⟩
      | some e =>
        by_cases hg : origKeyParams cfg orig = []
        · exact ⟨[Event.query args kf, Event.rollback],
            by simp [logEvent, hq, hadd, hg], by simp, by simp,
            Or.inl (by simp [logEvent, hq, hadd, hg])⟩
        · cases hone : env.queryOne (origKeyParams cfg orig) with
          | some found =>
            exact ⟨[Event.query args kf, Event.rollback,
                Event.query [] (origKeyParams cfg orig)],
              by simp [logEvent, hq, hadd, hg, hone], by simp, by simp,
              Or.inl (by simp [logEvent, hq, hadd, hg, hone])⟩
          | none =>
            exact ⟨[Event.query args kf, Event.rollback,
                Event.query [] (origKeyParams cfg orig)],
              by simp [logEvent, hq, hadd, hg, hone], by simp, by simp,
              Or.inl (by simp [logEvent, hq, hadd, hg, hone])⟩

/-- A successful `_create` appends to the log a flush/commit-free middle
part followed by exactly the persistence-policy events, and the returned
instance is tracked: it was tracked before the call or its add event is
in the middle part. -/
theorem create_ok_shape (cfg : Config) (env : Env) (orig : KV)
    (args : List V) (kwargs : KV) (s : Sess) (obj : Instance) (s2 : Sess)
    (hok : create cfg env orig args kwargs s = (.ok obj, s2)) :
    ∃ mid, s2.events = s.events ++ mid ++ persistEvents cfg.sqlalchemy_session_persistence ∧
      Event.flush ∉ mid ∧ Event.commit ∉ mid ∧
      obj ∈ s2.contents ∧ (obj ∈ s.contents ∨ Event.add obj ∈ mid) := by
  unfold create at hok
  by_cases hsess : cfg.sqlalchemy_session = none
  · rw [if_pos hsess] at hok
    exact absurd hok (by simp)
  · rw [if_neg hsess] at hok
    by_cases hge : cfg.sqlalchemy_get_or_create = []
    · rw [if_pos hge] at hok
      dsimp only at hok
      by_cases hmem : Instance.made args kwargs ∈ s.contents
      · rw [if_pos hmem] at hok
        have hobj : Instance.made args kwargs = obj := by
          have h := congrArg Prod.fst hok
          simpa using h
        have hs2 : applyPersistence cfg.sqlalchemy_session_persistence s = s2 := by
          have h := congrArg Prod.snd hok
          simpa using h
        subst hobj
        refine ⟨[], ?_, by simp, by simp, ?_, Or.inl hmem⟩
        · rw [← hs2, applyPersistence_events]
          simp
        · rw [← hs2, applyPersistence_contents]
          exact hmem
      · rw [if_neg hmem] at hok
        have hobj : Instance.made args kwargs = obj := by
          have h := congrArg Prod.fst hok
          simpa using h
        have hs2 : applyPersistence cfg.sqlalchemy_session_persistence
            (addToSession s (Instance.made args kwargs)) = s2 := by
          have h := congrArg Prod.snd hok
          simpa using h
        subst hobj
        refine ⟨[Event.add (Instance.made args kwargs)], ?_, by simp, by simp, ?_,
          Or.inr (by simp)⟩
        · rw [← hs2, applyPersistence_events]
          simp [addToSession]
        · rw [← hs2, applyPersistence_contents]
          simp [addToSession]
    · rw [if_neg hge] at hok
      obtain ⟨mid0, hev0, hfl0, hco0, hcont0⟩ := get_or_create_state cfg env orig args kwargs s
      rcases hgo : get_or_create cfg env orig args kwargs s with ⟨res, s1⟩
      rw [hgo] at hok hev0 hcont0
      dsimp only at hok hev0 hcont0
      cases res with
      | error e0 => exact absurd hok (by simp)
      | ok obj2 =>
        have hobj : obj2 = obj := by
          have h := congrArg Prod.fst hok
          simpa using h
        subst hobj
        have hs2 : applyPersistence cfg.sqlalchemy_session_persistence
            (if obj2 ∈ s1.contents then s1 else addToSession s1 obj2) = s2 := by
          have h := congrArg Prod.snd hok
          simpa using h
        by_cases hmem : obj2 ∈ s1.contents
        · rw [if_pos hmem] at hs2
          refine ⟨mid0, ?_, hfl0, hco0, ?_, ?_⟩
          · rw [← hs2, applyPersistence_events, hev0]
          · rw [← hs2, applyPersistence_contents]
            exact hmem
          · rcases hcont0 with h1 | ⟨obj3, hobj3, hcont3, hadd3⟩
            · rw [h1] at hmem
              exact Or.inl hmem
            · have hobj3e : obj2 = obj3 := Except.ok.inj hobj3
              subst hobj3e
              rw [hcont3] at hmem
              rcases List.mem_append.mp hmem with h2 | h3
              · exact Or.inl h2
              · rw [List.mem_singleton.mp h3]
                exact Or.inr hadd3
        · rw [if_neg hmem] at hs2
          refine ⟨mid0 ++ [Event.add obj2], ?_, by simp [hfl0], by simp [hco0], ?_,
            Or.inr (by simp)⟩
          · rw [← hs2, applyPersistence_events]
            simp [addToSession, hev0]
          · rw [← hs2, applyPersistence_contents]
            simp [addToSession]

/-- C6: for every successful `_create`: policy `flush` issues exactly
one flush, after the object is obtained, and no commit; policy `commit`
issues a commit; the `none` policy issues neither flush nor commit. -/
theorem create_persistence_policy (cfg : Config) (env : Env) (orig : KV)
    (args : List V) (kwargs : KV) (s : Sess) (obj : Instance) (s2 : Sess)
    (hok : create cfg env orig args kwargs s = (.ok obj, s2)) :
    ∃ mid, Event.flush ∉ mid ∧ Event.commit ∉ mid ∧
      (cfg.sqlalchemy_session_persistence = some SESSION_PERSISTENCE_FLUSH →
        s2.events = s.events ++ mid ++ [Event.flush]) ∧
      (cfg.sqlalchemy_session_persistence = some SESSION_PERSISTENCE_COMMIT →
        s2.events = s.events ++ mid ++ [Event.commit]) ∧
      (cfg.sqlalchemy_session_persistence = none →
        s2.events = s.events ++ mid) := by
  obtain ⟨mid, hev, hfl, hco, _, _⟩ := create_ok_shape cfg env orig args kwargs s obj s2 hok
  refine ⟨mid, hfl, hco, ?_, ?_, ?_⟩ <;> intro hp <;> rw [hev] <;>
    simp [persistEvents, hp, SESSION_PERSISTENCE_COMMIT, SESSION_PERSISTENCE_FLUSH]

/-- Witness for C6 at a concrete input with the `flush` policy. -/
theorem create_persistence_policy_witness :
    ∃ mid, Event.flush ∉ mid ∧ Event.commit ∉ mid ∧
      (cfgPlain.sqlalchemy_session_persistence = some SESSION_PERSISTENCE_FLUSH →
        ({ events := [Event.add (Instance.made [] []), Event.flush],
           contents := [Instance.made [] []] } : Sess).events =
          sess0.events ++ mid ++ [Event.flush]) ∧
      (cfgPlain.sqlalchemy_session_persistence = some SESSION_PERSISTENCE_COMMIT →
        ({ events := [Event.add (Instance.made [] []), Event.flush],
           contents := [Instance.made [] []] } : Sess).events =
          sess0.events ++ mid ++ [Event.commit]) ∧
      (cfgPlain.sqlalchemy_session_persistence = none →
        ({ events := [Event.add (Instance.made [] []), Event.flush],
           contents := [Instance.made [] []] } : Sess).events =
          sess0.events ++ mid) :=
  create_persistence_policy cfgPlain envFresh [] [] [] sess0 (Instance.made [] [])
    { events := [Event.add (Instance.made [] []), Event.flush],
      contents := [Instance.made [] []] } rfl

/-- C8: every successful `_create` returns an instance tracked by the
session: it was already tracked when the call began, or an add for it
was issued during the call (before the persistence events, which never
touch the tracked set). -/
theorem create_result_tracked (cfg : Config) (env : Env) (orig : KV)
    (args : List V) (kwargs : KV) (s : Sess) (obj : Instance) (s2 : Sess)
    (hok : create cfg env orig args kwargs s = (.ok obj, s2)) :
    obj ∈ s2.contents ∧ (obj ∈ s.contents ∨ Event.add obj ∈ s2.events) := by
  obtain ⟨mid, hev, _, _, hmem, hsrc⟩ := create_ok_shape cfg env orig args kwargs s obj s2 hok
  refine ⟨hmem, ?_⟩
  rcases hsrc with h1 | h2
  · exact Or.inl h1
  · refine Or.inr ?_
    rw [hev]
    exact List.mem_append.mpr (Or.inl (List.mem_append.mpr (Or.inr h2)))

/-- Witness for C8 at a concrete input (get-or-create finds row 1; the
row is then added by `_create` since the session did not track it). -/
theorem create_result_tracked_witness :
    Instance.row 1 ∈
      ({ events := [Event.query [] [("x", 5)], Event.add (Instance.row 1)],
         contents := [Instance.row 1] } : Sess).contents ∧
    (Instance.row 1 ∈ sess0.contents ∨
      Event.add (Instance.row 1) ∈
        ({ events := [Event.query [] [("x", 5)], Event.add (Instance.row 1)],
           contents := [Instance.row 1] } : Sess).events) :=
  create_result_tracked cfgX envFound [] [] [("x", 5)] sess0 (Instance.row 1)
    { events := [Event.query [] [("x", 5)], Event.add (Instance.row 1)],
      contents := [Instance.row 1] } rfl

/-- The pop loop can only fail with a `FactoryError`. -/
theorem popKeyFields_error_factory (name : String) :
    ∀ (fields : List String) (kwargs acc : KV) (err : Err),
      popKeyFields name fields kwargs acc = .error err →
      ∃ msg, err = .factoryError msg := by
  intro fields
  induction fields with
  | nil =>
    intro kwargs acc err h
    exact absurd h (by simp [popKeyFields])
  | cons f fs ih =>
    intro kwargs acc err h
    simp only [popKeyFields] at h
    cases hl : kwargs.lookup f with
    | none =>
      rw [hl] at h
      exact ⟨missingFieldMsg f name, (Except.error.inj h).symm⟩
    | some v =>
      rw [hl] at h
      exact ih (kvErase kwargs f) (acc ++ [(f, v)]) err h

/-- `_get_or_create` can only fail with a `FactoryError` or an
`IntegrityError`. -/
theorem get_or_create_error_shape (cfg : Config) (env : Env) (orig : KV)
    (args : List V) (kwargs : KV) (s : Sess) (err : Err) (s1 : Sess)
    (h : get_or_create cfg env orig args kwargs s = (.error err, s1)) :
    (∃ msg, err = .factoryError msg) ∨ (∃ e, err = .integrityError e) := by
  unfold get_or_create at h
  cases hpop : popKeyFields cfg.name cfg.sqlalchemy_get_or_create kwargs [] with
  | error err0 =>
    rw [hpop] at h
    dsimp only at h
    have herr : err0 = err := Except.error.inj (congrArg Prod.fst h)
    subst herr
    exact Or.inl (popKeyFields_error_factory cfg.name cfg.sqlalchemy_get_or_create
      kwargs [] err0 hpop)
  | ok kv =>
    obtain ⟨kf, rest⟩ := kv
    rw [hpop] at h
    dsimp only at h
    cases hq : env.queryOneOrNone args kf with
    | some inst =>
      rw [hq] at h
      exact absurd (congrArg Prod.fst h) (by simp)
    | none =>
      rw [hq] at h
      dsimp only at h
      cases hadd : env.addRaises (Instance.made args kf) with
      | none =>
        rw [hadd] at h
        exact absurd (congrArg Prod.fst h) (by simp)
      | some e =>
        rw [hadd] at h
        dsimp only at h
        by_cases hg : origKeyParams cfg orig = []
        · rw [if_pos hg] at h
          exact Or.inr ⟨e, (Except.error.inj (congrArg Prod.fst h)).symm⟩
        · rw [if_neg hg] at h
          cases hone : env.queryOne (origKeyParams cfg orig) with
          | some found =>
            rw [hone] at h
            exact absurd (congrArg Prod.fst h) (by simp)
          | none =>
            rw [hone] at h
            exact Or.inr ⟨e, (Except.error.inj (congrArg Prod.fst h)).symm⟩

/-- `_create` can only fail with the missing-session `RuntimeError`, a
`FactoryError`, or an `IntegrityError`. -/
theorem create_error_shape (cfg : Config) (env : Env) (orig : KV)
    (args : List V) (kwargs : KV) (s : Sess) (err : Err) (s2 : Sess)
    (h : create cfg env orig args kwargs s = (.error err, s2)) :
    err = .runtimeError "No session provided." ∨
      (∃ msg, err = .factoryError msg) ∨ (∃ e, err = .integrityError e) := by
  unfold create at h
  by_cases hsess : cfg.sqlalchemy_session = none
  · rw [if_pos hsess] at h
    exact Or.inl (Except.error.inj (congrArg Prod.fst h)).symm
  · rw [if_neg hsess] at h
    by_cases hge : cfg.sqlalchemy_get_or_create = []
    · rw [if_pos hge] at h
      exact absurd (congrArg Prod.fst h) (by simp)
    · rw [if_neg hge] at h
      rcases hgo : get_or_create cfg env orig args kwargs s with ⟨res, s1⟩
      rw [hgo] at h
      cases res with
      | ok obj2 => exact absurd (congrArg Prod.fst h) (by simp)
      | error e0 =>
        have herr : e0 = err := Except.error.inj (congrArg Prod.fst h)
        subst herr
        exact Or.inr (get_or_create_error_shape cfg env orig args kwargs s e0 s1 hgo)

/-- C7: the `sqlalchemy_session_persistence` checker runs when the
options are built, so any value outside the recognized set is rejected
with a `TypeError` at configuration-definition time, every recognized
value is accepted there, and `_create` itself never raises the
configuration `TypeError` — no such check is deferred to create time. -/
theorem options_persistence_checked (meta : String) (goc : List String)
    (sess : Option Unit) :
    (∀ v, v ∉ VALID_SESSION_PERSISTENCE_TYPES →
      build_default_options meta goc sess v = .error (.typeError meta v)) ∧
    (∀ v, v ∈ VALID_SESSION_PERSISTENCE_TYPES →
      build_default_options meta goc sess v =
        .ok { name := meta
              sqlalchemy_get_or_create := goc
              sqlalchemy_session := sess
              sqlalchemy_session_persistence := v }) ∧
    (∀ (cfg : Config) (env : Env) (orig : KV) (args : List V) (kwargs : KV)
      (s : Sess) (m : String) (v : Option String),
      (create cfg env orig args kwargs s).1 ≠ .error (.typeError m v)) := by
  refine ⟨?_, ?_, ?_⟩
  · intro v hv
    unfold build_default_options check_sqlalchemy_session_persistence
    rw [if_pos hv]
  · intro v hv
    unfold build_default_options check_sqlalchemy_session_persistence
    rw [if_neg (not_not_intro hv)]
  · intro cfg env orig args kwargs s m v hbad
    rcases hres : create cfg env orig args kwargs s with ⟨res, s2⟩
    rw [hres] at hbad
    dsimp only at hbad
    subst hbad
    rcases create_error_shape cfg env orig args kwargs s (.typeError m v) s2 hres
      with h1 | ⟨msg, h2⟩ | ⟨e, h3⟩
    · exact Err.noConfusion h1
    · exact Err.noConfusion h2
    · exact Err.noConfusion h3

/-- Witness for C7 at a concrete input: the unrecognized value `"bogus"`
is rejected when the options are built. -/
theorem options_persistence_checked_witness :
    build_default_options "UserFactory.Meta" [] none (some "bogus") =
      .error (.typeError "UserFactory.Meta" (some "bogus")) :=
  (options_persistence_checked "UserFactory.Meta" [] none).1 (some "bogus") (by decide)

/-- C10: the set of values accepted by
`_check_sqlalchemy_session_persistence` is exactly `{None, 'commit',
'flush'}`; in particular the string value `'none'` is not accepted and
raises the configuration `TypeError`. -/
theorem valid_persistence_values :
    (∀ meta, check_sqlalchemy_session_persistence meta (some "none") =
      .error (.typeError meta (some "none"))) ∧
    (∀ meta v, check_sqlalchemy_session_persistence meta v = .ok () ↔
      (v = none ∨ v = some SESSION_PERSISTENCE_COMMIT ∨
        v = some SESSION_PERSISTENCE_FLUSH)) := by
  constructor
  · intro meta
    unfold check_sqlalchemy_session_persistence
    rw [if_pos (by decide)]
  · intro meta v
    unfold check_sqlalchemy_session_persistence
    constructor
    · intro h
      by_cases hv : v ∈ VALID_SESSION_PERSISTENCE_TYPES
      · simpa [VALID_SESSION_PERSISTENCE_TYPES] using hv
      · rw [if_pos hv] at h
        exact absurd h (by simp)
    · intro h
      have hv : v ∈ VALID_SESSION_PERSISTENCE_TYPES := by
        rcases h with h | h | h <;> subst h <;> decide
      rw [if_neg (not_not_intro hv)]

end FactoryAlchemy
